import Mathlib

/-!
Save-data handlers of `api/savedata.go`.

A shallow embedding of the four request handlers of `api/savedata.go`
(`handleSavedataGet`, `handleSavedataUpdate`, `handleSavedataDelete`,
`handleSavedataClear`).

Every handler is a function from an environment `Env` (the answers of the
collaborators that live outside the file: authentication, the `db` package,
the save readers, the codecs, the filesystem) and a `Request` to the HTTP
response together with the list of effects it performed, in program order.
-/

namespace Savedata

/-! ## Data model -/

deriving instance DecidableEq for Except

/-- A byte of a Go `[]byte`. -/
abbrev Byte := Fin 256

/-- The account identifier, a Go `[]byte`. -/
abbrev UUID := List Byte

/-- The part of `defs.SystemSaveData` the handlers look at: the identity pair
and the statistics forwarded to the account store; `Other` stands for all
remaining fields. -/
structure SystemSaveData where
  TrainerID : Int
  SecretID : Int
  GameStats : String
  Other : String
deriving DecidableEq, Repr

/-- The part of `defs.SessionSaveData` the handlers look at; `Other` stands
for all remaining fields. The numeric fields are Go `int` values. -/
structure SessionSaveData where
  Seed : String
  GameMode : Int
  WaveIndex : Int
  Score : Int
  Other : String
deriving DecidableEq, Repr

/-- A value of `SavedataClearResponse`. -/
structure SavedataClearResponse where
  Success : Bool
deriving DecidableEq, Repr

/-- An error of the `os` package with the two classifications the handlers
ask for (`os.IsExist`, `os.IsNotExist`). -/
structure OSError where
  msg : String
  isExist : Bool
  isNotExist : Bool
deriving DecidableEq, Repr

/-- The parts of `*http.Request` the handlers read: the two query parameters
(`r.URL.Query().Get` gives the empty string for an absent one) and the body;
`token` stands for whatever `getUUIDFromRequest` inspects. -/
structure Request where
  token : String
  datatype : String
  slot : String
  body : String
deriving DecidableEq, Repr

/-- What the handler sent: the status code and the bytes written. -/
structure Response where
  status : Nat
  body : String
deriving DecidableEq, Repr

/-- The effects a handler performs, as they appear in the source. -/
inductive Event where
  | updateAccountLastActivity (uuid : UUID)
  | logPrint (msg : String)
  | readSystemSaveData (uuid : UUID)
  | readSessionSaveData (uuid : UUID) (slotID : Int)
  | updateAccountStats (uuid : UUID) (stats : String)
  | addOrUpdateAccountDailyRun (uuid : UUID) (score : Int) (wave : Int)
  | tryAddSeedCompletion (uuid : UUID) (seed : String) (mode : Int)
  | mkdirAll (path : String)
  | writeFile (path : String) (data : List Byte)
  | remove (path : String)
deriving DecidableEq, Repr

/-- The answers of everything the handlers call that is declared outside
`savedata.go`. An `Option String` result is a Go `error` (`none` is `nil`). -/
structure Env where
  getUUIDFromRequest : Request → Except String UUID
  UpdateAccountLastActivity : UUID → Option String
  UpdateAccountStats : UUID → String → Option String
  AddOrUpdateAccountDailyRun : UUID → Int → Int → Option String
  TryAddSeedCompletion : UUID → String → Int → Bool × Option String
  readSystemSaveData : UUID → Except String SystemSaveData
  readSessionSaveData : UUID → Int → Except String SessionSaveData
  validateSessionCompleted : SessionSaveData → Bool
  dailyRunSeed : String
  jsonDecodeSystem : String → Except String SystemSaveData
  jsonDecodeSession : String → Except String SessionSaveData
  jsonMarshalSystem : SystemSaveData → Except String String
  jsonMarshalSession : SessionSaveData → Except String String
  gobEncodeSystem : SystemSaveData → Except String (List Byte)
  gobEncodeSession : SessionSaveData → Except String (List Byte)
  zstdNewWriter : Option String
  zstdEncodeAll : List Byte → List Byte
  osMkdirAll : String → Option OSError
  osWriteFile : String → List Byte → Option String
  osRemove : String → Option OSError
  strconvQuote : String → String

/-! ## Library functions -/

/-- The constant `sessionSlotCount`. -/
def sessionSlotCount : Int := 3

def StatusOK : Nat := 200
def StatusBadRequest : Nat := 400
def StatusInternalServerError : Nat := 500

/-- Modelled from the spec: the helper `httpError(w, r, msg, code)` is declared
outside `savedata.go`; it reports the failure to the caller, here as the
response with the given status code and the message as body. -/
def httpError (msg : String) (code : Nat) : Response := ⟨code, msg⟩

/-- The two failures of `strconv.Atoi`. -/
inductive NumErr where
  | malformed
  | outOfRange
deriving DecidableEq, Repr

/-- The digit loop of Go's `strconv.ParseUint` for base 10 and 64 bits: the
characters are read left to right, a character that is not a decimal digit is
a syntax error, and a value that leaves the `uint64` range is a range error
(whichever comes first). -/
def parseUintLoop : List Char → Nat → Except NumErr Nat
  | [], n => .ok n
  | c :: cs, n =>
    if !c.isDigit then .error .malformed
    else if n ≥ (2 ^ 64 - 1) / 10 + 1 then .error .outOfRange
    else
      let n1 := n * 10 + (c.toNat - 48)
      if n1 > 2 ^ 64 - 1 then .error .outOfRange else parseUintLoop cs n1

/-- Go's `strconv.Atoi` on a 64-bit platform: an optional sign, then at least
one decimal digit and nothing else, and the value has to fit an `int`. -/
def strconvAtoi (s : String) : Except NumErr Int :=
  let neg : Bool := s.data.head? = some '-'
  let digits : List Char :=
    match s.data with
    | '-' :: t => t
    | '+' :: t => t
    | cs => cs
  if digits.isEmpty then
    .error .malformed
  else
    match parseUintLoop digits 0 with
    | .error e => .error e
    | .ok un =>
      if neg then
        if un > 2 ^ 63 then .error .outOfRange else .ok (-(un : Int))
      else
        if un ≥ 2 ^ 63 then .error .outOfRange else .ok (un : Int)

/-- The text of the `*strconv.NumError` that `strconv.Atoi` returns. -/
def atoiErrorText (env : Env) (s : String) (e : NumErr) : String :=
  "strconv.Atoi: parsing " ++ env.strconvQuote s ++ ": " ++
    (match e with
     | .malformed => "invalid syntax"
     | .outOfRange => "value out of range")

/-- Go's `strconv.Itoa` (also the `%d` verb of `fmt.Sprintf`). -/
def strconvItoa (n : Int) : String :=
  match n with
  | Int.ofNat m => Nat.repr m
  | Int.negSucc m => "-" ++ Nat.repr (m + 1)

/-- One hexadecimal digit of `encoding/hex` (lower case). -/
def hexDigit (n : Nat) : Char :=
  "0123456789abcdef".data.getD n '0'

/-- The characters of `hex.EncodeToString`: two digits per byte, the high
nibble first. -/
def hexChars : List Byte → List Char
  | [] => []
  | b :: bs => hexDigit (b.val / 16) :: hexDigit (b.val % 16) :: hexChars bs

/-- Go's `hex.EncodeToString`. -/
def hexEncodeToString (bs : List Byte) : String := String.mk (hexChars bs)

/-- Go's `int` decrement on a 64-bit platform (two's complement wrap-around). -/
def decInt (x : Int) : Int := (x - 1 + 2 ^ 63) % 2 ^ 64 - 2 ^ 63

/-- The effects of the call `db.UpdateAccountLastActivity(uuid)` and of the
log line written when it fails. -/
def touchLastActivity (env : Env) (uuid : UUID) : List Event :=
  match env.UpdateAccountLastActivity uuid with
  | none => [Event.updateAccountLastActivity uuid]
  | some _ =>
    [Event.updateAccountLastActivity uuid,
     Event.logPrint "failed to update account last activity"]

/-! ## The handlers -/

/-- The handler `handleSavedataGet` (`/savedata/get`). -/
def handleSavedataGet (env : Env) (r : Request) : Response × List Event :=
  match env.getUUIDFromRequest r with
  | .error err => (httpError err StatusBadRequest, [])
  | .ok uuid =>
    if r.datatype = "0" then
      match env.readSystemSaveData uuid with
      | .error err =>
        (httpError err StatusInternalServerError, [Event.readSystemSaveData uuid])
      | .ok system =>
        match env.jsonMarshalSystem system with
        | .error err =>
          (httpError ("failed to marshal save to json: " ++ err) StatusInternalServerError,
            [Event.readSystemSaveData uuid])
        | .ok saveJson => (⟨StatusOK, saveJson⟩, [Event.readSystemSaveData uuid])
    else if r.datatype = "1" then
      match strconvAtoi r.slot with
      | .error err =>
        (httpError ("failed to convert slot id: " ++ atoiErrorText env r.slot err)
          StatusBadRequest, [])
      | .ok slotID =>
        if slotID < 0 || slotID ≥ sessionSlotCount then
          (httpError ("slot id " ++ strconvItoa slotID ++ " out of range") StatusBadRequest, [])
        else
          match env.readSessionSaveData uuid slotID with
          | .error err =>
            (httpError err StatusInternalServerError, [Event.readSessionSaveData uuid slotID])
          | .ok session =>
            match env.jsonMarshalSession session with
            | .error err =>
              (httpError ("failed to marshal save to json: " ++ err) StatusInternalServerError,
                [Event.readSessionSaveData uuid slotID])
            | .ok saveJson => (⟨StatusOK, saveJson⟩, [Event.readSessionSaveData uuid slotID])
    else
      (httpError "invalid data type" StatusBadRequest, [])

/-- The handler `handleSavedataUpdate` (`/savedata/update`). -/
def handleSavedataUpdate (env : Env) (r : Request) : Response × List Event :=
  match env.getUUIDFromRequest r with
  | .error err => (httpError err StatusBadRequest, [])
  | .ok uuid =>
    let t₀ := touchLastActivity env uuid
    let hexUUID := hexEncodeToString uuid
    if r.datatype = "0" then
      match env.jsonDecodeSystem r.body with
      | .error err =>
        (httpError ("failed to decode request body: " ++ err) StatusBadRequest, t₀)
      | .ok system =>
        if system.TrainerID = 0 && system.SecretID = 0 then
          (httpError "invalid system data" StatusInternalServerError, t₀)
        else
          let t₁ := t₀ ++ [Event.updateAccountStats uuid system.GameStats]
          match env.UpdateAccountStats uuid system.GameStats with
          | some err =>
            (httpError ("failed to update account stats: " ++ err) StatusBadRequest, t₁)
          | none =>
            match env.gobEncodeSystem system with
            | .error err =>
              (httpError ("failed to serialize save: " ++ err) StatusInternalServerError, t₁)
            | .ok gobBuffer =>
              match env.zstdNewWriter with
              | some err =>
                (httpError ("failed to create zstd writer, " ++ err)
                  StatusInternalServerError, t₁)
              | none =>
                let compressed := env.zstdEncodeAll gobBuffer
                let dir := "userdata/" ++ hexUUID
                let t₂ := t₁ ++ [Event.mkdirAll dir]
                match (env.osMkdirAll dir).filter (fun e => !e.isExist) with
                | some err =>
                  (httpError ("failed to create userdata folder: " ++ err.msg)
                    StatusInternalServerError, t₂)
                | none =>
                  let path := "userdata/" ++ hexUUID ++ "/system.pzs"
                  let t₃ := t₂ ++ [Event.writeFile path compressed]
                  match env.osWriteFile path compressed with
                  | some err =>
                    (httpError ("failed to write save file: " ++ err)
                      StatusInternalServerError, t₃)
                  | none => (⟨StatusOK, ""⟩, t₃)
    else if r.datatype = "1" then
      match strconvAtoi r.slot with
      | .error err =>
        (httpError ("failed to convert slot id: " ++ atoiErrorText env r.slot err)
          StatusBadRequest, t₀)
      | .ok slotID =>
        if slotID < 0 || slotID ≥ sessionSlotCount then
          (httpError ("slot id " ++ strconvItoa slotID ++ " out of range") StatusBadRequest, t₀)
        else
          let fileName := if slotID ≠ 0 then "session" ++ strconvItoa slotID else "session"
          match env.jsonDecodeSession r.body with
          | .error err =>
            (httpError ("failed to decode request body: " ++ err) StatusBadRequest, t₀)
          | .ok session =>
            match env.gobEncodeSession session with
            | .error err =>
              (httpError ("failed to serialize save: " ++ err) StatusInternalServerError, t₀)
            | .ok gobBuffer =>
              match env.zstdNewWriter with
              | some err =>
                (httpError ("failed to create zstd writer, " ++ err)
                  StatusInternalServerError, t₀)
              | none =>
                let compressed := env.zstdEncodeAll gobBuffer
                let dir := "userdata/" ++ hexUUID
                let t₁ := t₀ ++ [Event.mkdirAll dir]
                match (env.osMkdirAll dir).filter (fun e => !e.isExist) with
                | some err =>
                  (httpError ("failed to create userdata folder: " ++ err.msg)
                    StatusInternalServerError, t₁)
                | none =>
                  let path := "userdata/" ++ hexUUID ++ "/" ++ fileName ++ ".pzs"
                  let t₂ := t₁ ++ [Event.writeFile path compressed]
                  match env.osWriteFile path compressed with
                  | some err =>
                    (httpError ("failed to write save file: " ++ err)
                      StatusInternalServerError, t₂)
                  | none => (⟨StatusOK, ""⟩, t₂)
    else
      (httpError "invalid data type" StatusBadRequest, t₀)

/-- The handler `handleSavedataDelete` (`/savedata/delete`). -/
def handleSavedataDelete (env : Env) (r : Request) : Response × List Event :=
  match env.getUUIDFromRequest r with
  | .error err => (httpError err StatusBadRequest, [])
  | .ok uuid =>
    let t₀ := touchLastActivity env uuid
    let hexUUID := hexEncodeToString uuid
    if r.datatype = "0" then
      let path := "userdata/" ++ hexUUID ++ "/system.pzs"
      match (env.osRemove path).filter (fun e => !e.isNotExist) with
      | some err =>
        (httpError ("failed to delete save file: " ++ err.msg) StatusInternalServerError,
          t₀ ++ [Event.remove path])
      | none => (⟨StatusOK, ""⟩, t₀ ++ [Event.remove path])
    else if r.datatype = "1" then
      match strconvAtoi r.slot with
      | .error err =>
        (httpError ("failed to convert slot id: " ++ atoiErrorText env r.slot err)
          StatusBadRequest, t₀)
      | .ok slotID =>
        if slotID < 0 || slotID ≥ sessionSlotCount then
          (httpError ("slot id " ++ strconvItoa slotID ++ " out of range") StatusBadRequest, t₀)
        else
          let fileName := if slotID ≠ 0 then "session" ++ strconvItoa slotID else "session"
          let path := "userdata/" ++ hexUUID ++ "/" ++ fileName ++ ".pzs"
          match (env.osRemove path).filter (fun e => !e.isNotExist) with
          | some err =>
            (httpError ("failed to delete save file: " ++ err.msg) StatusInternalServerError,
              t₀ ++ [Event.remove path])
          | none => (⟨StatusOK, ""⟩, t₀ ++ [Event.remove path])
    else
      (httpError "invalid data type" StatusBadRequest, t₀)

/-- Go's `json.Marshal` on a `SavedataClearResponse`: a struct with one
boolean field tagged `success`, for which the encoder has no error case. -/
def jsonMarshalClearResponse (v : SavedataClearResponse) : Except String String :=
  .ok (if v.Success then "\x7b\"success\":true\x7d" else "\x7b\"success\":false\x7d")

/-- The daily-run block of `handleSavedataClear`: the effects it performs. -/
def clearDailyRun (env : Env) (uuid : UUID) (session : SessionSaveData)
    (sessionCompleted : Bool) : List Event :=
  if session.GameMode = 3 && session.Seed = env.dailyRunSeed then
    let waveCompleted :=
      if !sessionCompleted then decInt session.WaveIndex else session.WaveIndex
    match env.AddOrUpdateAccountDailyRun uuid session.Score waveCompleted with
    | some err =>
      [Event.addOrUpdateAccountDailyRun uuid session.Score waveCompleted,
       Event.logPrint ("failed to add or update daily run record: " ++ err)]
    | none => [Event.addOrUpdateAccountDailyRun uuid session.Score waveCompleted]
  else []

/-- The seed-completion block of `handleSavedataClear`: the value
`newCompletion` has after it, and the effects it performs. -/
def clearSeedCompletion (env : Env) (uuid : UUID) (session : SessionSaveData)
    (sessionCompleted : Bool) : Bool × List Event :=
  if sessionCompleted then
    match env.TryAddSeedCompletion uuid session.Seed session.GameMode with
    | (newCompletion, some err) =>
      (newCompletion,
        [Event.tryAddSeedCompletion uuid session.Seed session.GameMode,
         Event.logPrint ("failed to mark seed as completed: " ++ err)])
    | (newCompletion, none) =>
      (newCompletion, [Event.tryAddSeedCompletion uuid session.Seed session.GameMode])
  else (false, [])

/-- The handler `handleSavedataClear` (`/savedata/clear`). -/
def handleSavedataClear (env : Env) (r : Request) : Response × List Event :=
  match env.getUUIDFromRequest r with
  | .error err => (httpError err StatusBadRequest, [])
  | .ok uuid =>
    let t₀ := touchLastActivity env uuid
    match strconvAtoi r.slot with
    | .error err =>
      (httpError ("failed to convert slot id: " ++ atoiErrorText env r.slot err)
        StatusBadRequest, t₀)
    | .ok slotID =>
      if slotID < 0 || slotID ≥ sessionSlotCount then
        (httpError ("slot id " ++ strconvItoa slotID ++ " out of range") StatusBadRequest, t₀)
      else
        match env.jsonDecodeSession r.body with
        | .error err =>
          (httpError ("failed to decode request body: " ++ err) StatusBadRequest, t₀)
        | .ok session =>
          let sessionCompleted := env.validateSessionCompleted session
          let t₁ := t₀ ++ clearDailyRun env uuid session sessionCompleted
          let seedResult := clearSeedCompletion env uuid session sessionCompleted
          let newCompletion := seedResult.1
          let t₂ := t₁ ++ seedResult.2
          match jsonMarshalClearResponse ⟨newCompletion⟩ with
          | .error err =>
            (httpError ("failed to marshal response json: " ++ err)
              StatusInternalServerError, t₂)
          | .ok response =>
            let fileName := if slotID ≠ 0 then "session" ++ strconvItoa slotID else "session"
            let path := "userdata/" ++ hexEncodeToString uuid ++ "/" ++ fileName ++ ".pzs"
            match (env.osRemove path).filter (fun e => !e.isNotExist) with
            | some err =>
              (httpError ("failed to delete save file: " ++ err.msg)
                StatusInternalServerError, t₂ ++ [Event.remove path])
            | none => (⟨StatusOK, response⟩, t₂ ++ [Event.remove path])

/-! ## A concrete environment -/

/-- An environment in which every collaborator succeeds: the caller is account
`[0xab, 0x01]`, bodies decode to fixed saves, the daily seed is `daily`. -/
def okEnv : Env where
  getUUIDFromRequest := fun _ => .ok [0xab, 0x01]
  UpdateAccountLastActivity := fun _ => none
  UpdateAccountStats := fun _ _ => none
  AddOrUpdateAccountDailyRun := fun _ _ _ => none
  TryAddSeedCompletion := fun _ _ _ => (true, none)
  readSystemSaveData := fun _ => .ok ⟨7, 0, "stats", ""⟩
  readSessionSaveData := fun _ _ => .ok ⟨"daily", 3, 5, 100, ""⟩
  validateSessionCompleted := fun s => s.Other = "completed"
  dailyRunSeed := "daily"
  jsonDecodeSystem := fun b => .ok ⟨7, 0, "stats", b⟩
  jsonDecodeSession := fun b => .ok ⟨"daily", 3, 5, 100, b⟩
  jsonMarshalSystem := fun s => .ok s.Other
  jsonMarshalSession := fun s => .ok s.Other
  gobEncodeSystem := fun _ => .ok [1]
  gobEncodeSession := fun _ => .ok [2]
  zstdNewWriter := none
  zstdEncodeAll := fun d => d
  osMkdirAll := fun _ => none
  osWriteFile := fun _ _ => none
  osRemove := fun _ => none
  strconvQuote := fun s => "\"" ++ s ++ "\""

/-- The all-succeeding environment, except that `db.TryAddSeedCompletion`
fails and returns `true` alongside its error. -/
def seedFailEnv : Env :=
  { okEnv with TryAddSeedCompletion := fun _ _ _ => (true, some "db down") }

/-- The all-succeeding environment, except that `db.UpdateAccountStats`
fails. -/
def statsFailEnv : Env :=
  { okEnv with UpdateAccountStats := fun _ _ => some "db down" }

/-- The all-succeeding environment, except that the body decodes to a
daily-seed session whose stored wave index is the least Go `int`. -/
def minWaveEnv : Env :=
  { okEnv with jsonDecodeSession := fun b => .ok ⟨"daily", 3, -2 ^ 63, 100, b⟩ }

/-! ## Observations on responses and effect lists -/

/-- The address check of the specification: the data-type token is `0` (System), or
it is `1` (Session) and the slot parses to an integer in `[0, 3)`. -/
def addressValid (datatype slot : String) : Bool :=
  datatype = "0" ||
    (datatype = "1" &&
      match strconvAtoi slot with
      | .ok n => 0 ≤ n && n < 3
      | .error _ => false)

/-- An effect on the blob store: a save read, a directory creation, a file
write or a file removal. -/
def Event.isStoreOp : Event → Bool
  | .readSystemSaveData _ => true
  | .readSessionSaveData _ _ => true
  | .mkdirAll _ => true
  | .writeFile _ _ => true
  | .remove _ => true
  | _ => false

/-- The effect is a call of `db.UpdateAccountStats`. -/
def Event.isStatsUpdate : Event → Bool
  | .updateAccountStats _ _ => true
  | _ => false

/-- The blob-store effects of an effect list, in order. -/
def storeOps (t : List Event) : List Event := t.filter Event.isStoreOp

/-- The entry name of a session slot in the words of the specification: the
base name for slot 0, the base name followed by the slot number for slots 1
and 2. -/
def specSessionName (slot : Int) : String :=
  if slot = 0 then "session" else if slot = 1 then "session1" else "session2"

/-- The data-type of a save: the singleton System save or the Session save of
a slot. -/
inductive DataType where
  | System
  | Session (slot : Int)
deriving DecidableEq, Repr

/-- A save key: the account identifier and the data-type (with its slot). -/
structure SaveKey where
  account : UUID
  dataType : DataType
deriving DecidableEq, Repr

/-- The storage path of a save key in the words of the specification:
`userdata/<hex(account)>/system.pzs` for the System save and
`userdata/<hex(account)>/session[<slot>].pzs` for a Session save. -/
def specPath (k : SaveKey) : String :=
  match k.dataType with
  | .System => "userdata/" ++ hexEncodeToString k.account ++ "/system.pzs"
  | .Session slot =>
    "userdata/" ++ hexEncodeToString k.account ++ "/" ++ specSessionName slot ++ ".pzs"

/-- The characters of a storage path after the account directory. -/
def entryChars : DataType → List Char
  | .System => "system.pzs".data
  | .Session slot => (specSessionName slot).data ++ ".pzs".data

/-- The request `r` addresses the valid save key `k`: authentication resolves
it to the account of `k`, and its query names the data-type of `k`, with a slot
in `[0, 3)` for a Session save. -/
def Addresses (env : Env) (r : Request) (k : SaveKey) : Prop :=
  env.getUUIDFromRequest r = .ok k.account ∧
    match k.dataType with
    | .System => r.datatype = "0"
    | .Session slot =>
      r.datatype = "1" ∧ strconvAtoi r.slot = .ok slot ∧ 0 ≤ slot ∧ slot < 3

/-- The effect is a call of `db.TryAddSeedCompletion`. -/
def Event.isSeedCompletion : Event → Bool
  | .tryAddSeedCompletion _ _ _ => true
  | _ => false

/-- The effect is a call of `db.AddOrUpdateAccountDailyRun`. -/
def Event.isDailyRun : Event → Bool
  | .addOrUpdateAccountDailyRun _ _ _ => true
  | _ => false

/-- The response is one of the three rejections of the address: status 400
with the message for a bad data type, an unparsable slot or a slot out of
range. -/
def AddressRejected (resp : Response) : Prop :=
  resp.status = 400 ∧
    (resp.body = "invalid data type" ∨
      "failed to convert slot id: ".data <+: resp.body.data ∨
      "slot id ".data <+: resp.body.data)

instance (resp : Response) : Decidable (AddressRejected resp) := by
  unfold AddressRejected; infer_instance

/-! ## Address validation -/

theorem touchLastActivity_no_store (env : Env) (uuid : UUID) :
    ∀ e ∈ touchLastActivity env uuid, e.isStoreOp = false := by
  intro e he
  unfold touchLastActivity at he
  split at he <;> simp at he <;> rcases he with rfl | rfl <;> rfl

theorem addressValid_zero (slot : String) : addressValid "0" slot = true := by
  simp [addressValid]

theorem addressValid_iff (datatype slot : String) :
    addressValid datatype slot = true ↔
      datatype = "0" ∨
        (datatype = "1" ∧ ∃ n : Int, strconvAtoi slot = .ok n ∧ 0 ≤ n ∧ n < 3) := by
  unfold addressValid
  cases h : strconvAtoi slot <;> simp

theorem slot_in_range {n : Int} (h0 : 0 ≤ n) (h3 : n < 3) :
    (decide (n < 0) || decide (n ≥ sessionSlotCount)) = false := by
  simp [sessionSlotCount]; omega

theorem slot_out_of_range {n : Int} (h : ¬ (0 ≤ n ∧ n < 3)) :
    (decide (n < 0) || decide (n ≥ sessionSlotCount)) = true := by
  simp [sessionSlotCount]; omega

theorem one_ne_zero_token : ¬ ("1" : String) = "0" := by decide

theorem get_valid (env : Env) (r : Request) (uuid : UUID)
    (hu : env.getUUIDFromRequest r = .ok uuid)
    (hv : addressValid r.datatype r.slot = true) :
    ¬ AddressRejected (handleSavedataGet env r).1 ∧
      ∃ e ∈ (handleSavedataGet env r).2, e.isStoreOp = true := by
  unfold handleSavedataGet
  simp only [hu]
  rcases (addressValid_iff _ _).1 hv with h0 | ⟨h1, n, hn, h0n, hn3⟩
  · simp only [h0, if_true]
    split
    · simp [AddressRejected, httpError, StatusInternalServerError, Event.isStoreOp]
    · split <;>
        simp [AddressRejected, httpError, StatusInternalServerError, StatusOK, Event.isStoreOp]
  · simp only [h1, one_ne_zero_token, if_false, if_true, hn, slot_in_range h0n hn3]
    simp only [Bool.false_eq_true, if_false]
    split
    · simp [AddressRejected, httpError, StatusInternalServerError, Event.isStoreOp]
    · split <;>
        simp [AddressRejected, httpError, StatusInternalServerError, StatusOK, Event.isStoreOp]

theorem get_invalid (env : Env) (r : Request) (uuid : UUID)
    (hu : env.getUUIDFromRequest r = .ok uuid)
    (hv : addressValid r.datatype r.slot = false) :
    AddressRejected (handleSavedataGet env r).1 ∧
      ∀ e ∈ (handleSavedataGet env r).2, e.isStoreOp = false := by
  have hv' := (not_congr (addressValid_iff r.datatype r.slot)).1 (by simp [hv])
  push_neg at hv'
  obtain ⟨h0, h1⟩ := hv'
  unfold handleSavedataGet
  simp only [hu, h0, if_false]
  by_cases hd : r.datatype = "1"
  · simp only [hd, if_true]
    cases hn : strconvAtoi r.slot with
    | error err =>
      simp [AddressRejected, httpError, StatusBadRequest, String.data_append]
    | ok n =>
      have hr : ¬ (0 ≤ n ∧ n < 3) := fun hh => by have := h1 hd n hn hh.1; omega
      simp only [slot_out_of_range hr, if_true]
      simp [AddressRejected, httpError, StatusBadRequest, String.data_append]
  · simp [hd, AddressRejected, httpError, StatusBadRequest]

theorem update_valid (env : Env) (r : Request) (uuid : UUID)
    (hu : env.getUUIDFromRequest r = .ok uuid)
    (hv : addressValid r.datatype r.slot = true) :
    ¬ AddressRejected (handleSavedataUpdate env r).1 := by
  unfold handleSavedataUpdate
  simp only [hu]
  rcases (addressValid_iff _ _).1 hv with h0 | ⟨h1, n, hn, h0n, hn3⟩
  · simp only [h0, if_true]
    repeat' split
    all_goals
      simp [AddressRejected, httpError, StatusInternalServerError, StatusOK, StatusBadRequest,
        String.data_append, String.ext_iff]
  · simp only [h1, one_ne_zero_token, if_false, if_true, hn, slot_in_range h0n hn3]
    simp only [Bool.false_eq_true, if_false]
    repeat' split
    all_goals
      simp [AddressRejected, httpError, StatusInternalServerError, StatusOK, StatusBadRequest,
        String.data_append, String.ext_iff]

theorem update_invalid (env : Env) (r : Request) (uuid : UUID)
    (hu : env.getUUIDFromRequest r = .ok uuid)
    (hv : addressValid r.datatype r.slot = false) :
    AddressRejected (handleSavedataUpdate env r).1 ∧
      ∀ e ∈ (handleSavedataUpdate env r).2, e.isStoreOp = false := by
  have hv' := (not_congr (addressValid_iff r.datatype r.slot)).1 (by simp [hv])
  push_neg at hv'
  obtain ⟨h0, h1⟩ := hv'
  unfold handleSavedataUpdate
  simp only [hu, h0, if_false]
  by_cases hd : r.datatype = "1"
  · simp only [hd, if_true]
    cases hn : strconvAtoi r.slot with
    | error err =>
      refine ⟨?_, touchLastActivity_no_store env uuid⟩
      simp [AddressRejected, httpError, StatusBadRequest, String.data_append]
    | ok n =>
      have hr : ¬ (0 ≤ n ∧ n < 3) := fun hh => by have := h1 hd n hn hh.1; omega
      simp only [slot_out_of_range hr, if_true]
      refine ⟨?_, touchLastActivity_no_store env uuid⟩
      simp [AddressRejected, httpError, StatusBadRequest, String.data_append]
  · simp only [hd, if_false]
    refine ⟨?_, touchLastActivity_no_store env uuid⟩
    simp [AddressRejected, httpError, StatusBadRequest]

theorem delete_valid (env : Env) (r : Request) (uuid : UUID)
    (hu : env.getUUIDFromRequest r = .ok uuid)
    (hv : addressValid r.datatype r.slot = true) :
    ¬ AddressRejected (handleSavedataDelete env r).1 ∧
      ∃ e ∈ (handleSavedataDelete env r).2, e.isStoreOp = true := by
  unfold handleSavedataDelete
  simp only [hu]
  rcases (addressValid_iff _ _).1 hv with h0 | ⟨h1, n, hn, h0n, hn3⟩
  · simp only [h0, if_true]
    split <;>
      exact ⟨by simp [AddressRejected, httpError, StatusInternalServerError, StatusOK],
        _, List.mem_append_right _ (List.mem_singleton_self _), rfl⟩
  · simp only [h1, one_ne_zero_token, if_false, if_true, hn, slot_in_range h0n hn3]
    simp only [Bool.false_eq_true, if_false]
    split <;>
      exact ⟨by simp [AddressRejected, httpError, StatusInternalServerError, StatusOK],
        _, List.mem_append_right _ (List.mem_singleton_self _), rfl⟩

theorem delete_invalid (env : Env) (r : Request) (uuid : UUID)
    (hu : env.getUUIDFromRequest r = .ok uuid)
    (hv : addressValid r.datatype r.slot = false) :
    AddressRejected (handleSavedataDelete env r).1 ∧
      ∀ e ∈ (handleSavedataDelete env r).2, e.isStoreOp = false := by
  have hv' := (not_congr (addressValid_iff r.datatype r.slot)).1 (by simp [hv])
  push_neg at hv'
  obtain ⟨h0, h1⟩ := hv'
  unfold handleSavedataDelete
  simp only [hu, h0, if_false]
  by_cases hd : r.datatype = "1"
  · simp only [hd, if_true]
    cases hn : strconvAtoi r.slot with
    | error err =>
      refine ⟨?_, touchLastActivity_no_store env uuid⟩
      simp [AddressRejected, httpError, StatusBadRequest, String.data_append]
    | ok n =>
      have hr : ¬ (0 ≤ n ∧ n < 3) := fun hh => by have := h1 hd n hn hh.1; omega
      simp only [slot_out_of_range hr, if_true]
      refine ⟨?_, touchLastActivity_no_store env uuid⟩
      simp [AddressRejected, httpError, StatusBadRequest, String.data_append]
  · simp only [hd, if_false]
    refine ⟨?_, touchLastActivity_no_store env uuid⟩
    simp [AddressRejected, httpError, StatusBadRequest]

/-- C1: for every data-type token and slot value, each of the get, update and
delete handlers rejects the address (status 400 with an address message)
exactly when the request is neither System (token `0`, slot ignored) nor
Session (token `1`) with a slot that parses to an integer in `[0, 3)`; on such
a rejection the status is 400 and no blob is read, written or deleted, and on
an accepted address get reaches its read and delete reaches its removal. -/
theorem address_accepted_iff_valid (env : Env) (r : Request) (uuid : UUID)
    (hu : env.getUUIDFromRequest r = .ok uuid) :
    ((¬ AddressRejected (handleSavedataGet env r).1 ↔
        (r.datatype = "0" ∨
          (r.datatype = "1" ∧ ∃ n : Int, strconvAtoi r.slot = .ok n ∧ 0 ≤ n ∧ n < 3))) ∧
     (¬ AddressRejected (handleSavedataUpdate env r).1 ↔
        (r.datatype = "0" ∨
          (r.datatype = "1" ∧ ∃ n : Int, strconvAtoi r.slot = .ok n ∧ 0 ≤ n ∧ n < 3))) ∧
     (¬ AddressRejected (handleSavedataDelete env r).1 ↔
        (r.datatype = "0" ∨
          (r.datatype = "1" ∧ ∃ n : Int, strconvAtoi r.slot = .ok n ∧ 0 ≤ n ∧ n < 3)))) ∧
    (¬ (r.datatype = "0" ∨
          (r.datatype = "1" ∧ ∃ n : Int, strconvAtoi r.slot = .ok n ∧ 0 ≤ n ∧ n < 3)) →
      ((handleSavedataGet env r).1.status = 400 ∧
        ∀ e ∈ (handleSavedataGet env r).2, e.isStoreOp = false) ∧
      ((handleSavedataUpdate env r).1.status = 400 ∧
        ∀ e ∈ (handleSavedataUpdate env r).2, e.isStoreOp = false) ∧
      ((handleSavedataDelete env r).1.status = 400 ∧
        ∀ e ∈ (handleSavedataDelete env r).2, e.isStoreOp = false)) ∧
    ((r.datatype = "0" ∨
          (r.datatype = "1" ∧ ∃ n : Int, strconvAtoi r.slot = .ok n ∧ 0 ≤ n ∧ n < 3)) →
      (∃ e ∈ (handleSavedataGet env r).2, e.isStoreOp = true) ∧
      (∃ e ∈ (handleSavedataDelete env r).2, e.isStoreOp = true)) := by
  rw [← addressValid_iff]
  cases hv : addressValid r.datatype r.slot
  · have hg := get_invalid env r uuid hu hv
    have hp := update_invalid env r uuid hu hv
    have hd := delete_invalid env r uuid hu hv
    refine ⟨⟨?_, ?_, ?_⟩, fun _ => ⟨⟨hg.1.1, hg.2⟩, ⟨hp.1.1, hp.2⟩, ⟨hd.1.1, hd.2⟩⟩, ?_⟩
    · simpa using hg.1
    · simpa using hp.1
    · simpa using hd.1
    · intro h; simp at h
  · have hg := get_valid env r uuid hu hv
    have hp := update_valid env r uuid hu hv
    have hd := delete_valid env r uuid hu hv
    refine ⟨⟨?_, ?_, ?_⟩, fun h => absurd rfl h, fun _ => ⟨hg.2, hd.2⟩⟩
    · simpa using hg.1
    · simpa using hp
    · simpa using hd.1

/-- Witness for C1: a Session request for slot `2` in the all-succeeding
environment. -/
theorem address_accepted_iff_valid_witness :
    okEnv.getUUIDFromRequest ⟨"", "1", "2", ""⟩ = .ok [0xab, 0x01] ∧
    ¬ AddressRejected (handleSavedataUpdate okEnv ⟨"", "1", "2", ""⟩).1 ∧
    (∃ e ∈ (handleSavedataGet okEnv ⟨"", "1", "2", ""⟩).2, e.isStoreOp = true) ∧
    (∃ e ∈ (handleSavedataDelete okEnv ⟨"", "1", "2", ""⟩).2, e.isStoreOp = true) :=
  have h := address_accepted_iff_valid okEnv ⟨"", "1", "2", ""⟩ [0xab, 0x01] rfl
  have hv : (("1" : String) = "0" ∨
      (("1" : String) = "1" ∧ ∃ n : Int, strconvAtoi "2" = .ok n ∧ 0 ≤ n ∧ n < 3)) :=
    Or.inr ⟨rfl, 2, by decide, by decide, by decide⟩
  ⟨rfl, h.1.2.1.2 hv, (h.2.2 hv).1, (h.2.2 hv).2⟩

/-! ## The identity check of a System update -/

theorem touchLastActivity_no_stats (env : Env) (uuid : UUID) :
    ∀ e ∈ touchLastActivity env uuid, e.isStatsUpdate = false := by
  intro e he
  unfold touchLastActivity at he
  split at he <;> simp at he <;> rcases he with rfl | rfl <;> rfl

/-- C2: on a System update whose body decodes to a save with TrainerID and
SecretID both 0, whatever the other fields, the handler answers with the error
`invalid system data` and has done nothing but the last-activity touch: no
account-stats update is forwarded and no blob-store effect happens; when one
of the two fields is non-zero the answer is not that error and the flow goes
on to forward the account-stats update. -/
theorem system_update_identity_check (env : Env) (r : Request) (uuid : UUID)
    (system : SystemSaveData)
    (hu : env.getUUIDFromRequest r = .ok uuid) (hd : r.datatype = "0")
    (hb : env.jsonDecodeSystem r.body = .ok system) :
    ((system.TrainerID = 0 ∧ system.SecretID = 0) →
      handleSavedataUpdate env r =
        (httpError "invalid system data" StatusInternalServerError,
          touchLastActivity env uuid) ∧
      (handleSavedataUpdate env r).1.status ≠ StatusOK ∧
      (∀ e ∈ (handleSavedataUpdate env r).2,
        e.isStatsUpdate = false ∧ e.isStoreOp = false)) ∧
    (¬ (system.TrainerID = 0 ∧ system.SecretID = 0) →
      (handleSavedataUpdate env r).1 ≠
        httpError "invalid system data" StatusInternalServerError ∧
      Event.updateAccountStats uuid system.GameStats ∈ (handleSavedataUpdate env r).2) := by
  constructor
  · rintro ⟨ht, hs⟩
    have h : handleSavedataUpdate env r =
        (httpError "invalid system data" StatusInternalServerError,
          touchLastActivity env uuid) := by
      unfold handleSavedataUpdate
      simp [hu, hd, hb, ht, hs]
    rw [h]
    refine ⟨rfl, by simp [httpError, StatusInternalServerError, StatusOK],
      fun e he => ⟨?_, ?_⟩⟩
    · exact touchLastActivity_no_stats env uuid e he
    · exact touchLastActivity_no_store env uuid e he
  · intro hne
    have hne' : (decide (system.TrainerID = 0) && decide (system.SecretID = 0)) = false := by
      simpa using hne
    unfold handleSavedataUpdate
    simp only [hu, hd, hb, hne', if_true, Bool.false_eq_true, if_false]
    repeat' split
    all_goals
      simp [httpError, StatusInternalServerError, StatusOK, StatusBadRequest,
        String.data_append, String.ext_iff]

/-- Witness for C2: the body of the all-succeeding environment decodes to the
identity pair `(7, 0)`. -/
theorem system_update_identity_check_witness :
    okEnv.getUUIDFromRequest ⟨"", "0", "", "x"⟩ = .ok [0xab, 0x01] ∧
    okEnv.jsonDecodeSystem "x" = .ok ⟨7, 0, "stats", "x"⟩ ∧
    Event.updateAccountStats [0xab, 0x01] "stats" ∈
      (handleSavedataUpdate okEnv ⟨"", "0", "", "x"⟩).2 :=
  ⟨rfl, rfl,
    ((system_update_identity_check okEnv ⟨"", "0", "", "x"⟩ [0xab, 0x01]
      ⟨7, 0, "stats", "x"⟩ rfl rfl rfl).2 (by decide)).2⟩

/-! ## Session entry names -/

theorem storeOps_touch (env : Env) (uuid : UUID) :
    storeOps (touchLastActivity env uuid) = [] := by
  unfold storeOps touchLastActivity
  split <;> rfl

theorem storeOps_clearDailyRun (env : Env) (uuid : UUID) (session : SessionSaveData)
    (c : Bool) : storeOps (clearDailyRun env uuid session c) = [] := by
  unfold storeOps clearDailyRun
  dsimp only
  repeat' split
  all_goals rfl

theorem storeOps_clearSeedCompletion (env : Env) (uuid : UUID) (session : SessionSaveData)
    (c : Bool) : storeOps (clearSeedCompletion env uuid session c).2 = [] := by
  unfold storeOps clearSeedCompletion
  split
  · split <;> rfl
  · rfl

theorem storeOps_append (t₁ t₂ : List Event) :
    storeOps (t₁ ++ t₂) = storeOps t₁ ++ storeOps t₂ := by
  simp [storeOps]

theorem fileName_eq_spec {n : Int} (h0 : 0 ≤ n) (h3 : n < 3) :
    (if n ≠ 0 then "session" ++ strconvItoa n else "session") = specSessionName n := by
  have h : n = 0 ∨ n = 1 ∨ n = 2 := by omega
  rcases h with rfl | rfl | rfl <;> decide

/-- C3: for a valid session slot the update, delete and clear handlers derive
the same storage name: `session` for slot 0, `session1` and `session2` for
slots 1 and 2. The only removal of delete and of clear, and the only write of
update, go to the one path `userdata/<hex(account)>/<name>.pzs`. -/
theorem session_name_agrees (env : Env) (r : Request) (uuid : UUID) (n : Int)
    (hu : env.getUUIDFromRequest r = .ok uuid) (hd : r.datatype = "1")
    (hn : strconvAtoi r.slot = .ok n) (h0 : 0 ≤ n) (h3 : n < 3) :
    storeOps (handleSavedataDelete env r).2 =
      [Event.remove
        ("userdata/" ++ hexEncodeToString uuid ++ "/" ++ specSessionName n ++ ".pzs")] ∧
    (∀ session, env.jsonDecodeSession r.body = .ok session →
      storeOps (handleSavedataClear env r).2 =
        [Event.remove
          ("userdata/" ++ hexEncodeToString uuid ++ "/" ++ specSessionName n ++ ".pzs")]) ∧
    (∀ session gobBuffer, env.jsonDecodeSession r.body = .ok session →
      env.gobEncodeSession session = .ok gobBuffer → env.zstdNewWriter = none →
      (env.osMkdirAll ("userdata/" ++ hexEncodeToString uuid)).filter
        (fun e => !e.isExist) = none →
      storeOps (handleSavedataUpdate env r).2 =
        [Event.mkdirAll ("userdata/" ++ hexEncodeToString uuid),
         Event.writeFile
          ("userdata/" ++ hexEncodeToString uuid ++ "/" ++ specSessionName n ++ ".pzs")
          (env.zstdEncodeAll gobBuffer)]) := by
  refine ⟨?_, ?_, ?_⟩
  · unfold handleSavedataDelete
    simp only [hu, hd, one_ne_zero_token, if_false, if_true, hn, slot_in_range h0 h3,
      Bool.false_eq_true, fileName_eq_spec h0 h3]
    split <;> simp [storeOps_append, storeOps_touch] <;> rfl
  · intro session hs
    unfold handleSavedataClear
    simp only [hu, hn, slot_in_range h0 h3, Bool.false_eq_true, if_false, hs,
      fileName_eq_spec h0 h3, jsonMarshalClearResponse]
    split <;>
      simp [storeOps_append, storeOps_touch, storeOps_clearDailyRun,
        storeOps_clearSeedCompletion] <;> rfl
  · intro session gobBuffer hs hg hz hm
    unfold handleSavedataUpdate
    simp only [hu, hd, one_ne_zero_token, if_false, if_true, hn, slot_in_range h0 h3,
      Bool.false_eq_true, fileName_eq_spec h0 h3, hs, hg, hz, hm]
    split <;> simp [storeOps_append, storeOps_touch] <;> rfl

/-- Witness for C3: slot `2` of account `ab01` in the all-succeeding
environment. -/
theorem session_name_agrees_witness :
    okEnv.getUUIDFromRequest ⟨"", "1", "2", "x"⟩ = .ok [0xab, 0x01] ∧
    strconvAtoi "2" = .ok 2 ∧
    storeOps (handleSavedataDelete okEnv ⟨"", "1", "2", "x"⟩).2 =
      [Event.remove "userdata/ab01/session2.pzs"] ∧
    storeOps (handleSavedataClear okEnv ⟨"", "1", "2", "x"⟩).2 =
      [Event.remove "userdata/ab01/session2.pzs"] ∧
    storeOps (handleSavedataUpdate okEnv ⟨"", "1", "2", "x"⟩).2 =
      [Event.mkdirAll "userdata/ab01", Event.writeFile "userdata/ab01/session2.pzs" [2]] :=
  have h := session_name_agrees okEnv ⟨"", "1", "2", "x"⟩ [0xab, 0x01] 2 rfl rfl
    (by decide) (by decide) (by decide)
  ⟨rfl, by decide, h.1, h.2.1 _ rfl, h.2.2 _ _ rfl rfl rfl rfl⟩

/-! ## Storage paths are injective -/

theorem hexDigit_ne_slash : ∀ n : Fin 16, hexDigit n.val ≠ '/' := by decide

theorem hexDigit_injective : ∀ a b : Fin 16, hexDigit a.val = hexDigit b.val → a = b := by
  decide

theorem slash_not_mem_hexChars (bs : List Byte) : '/' ∉ hexChars bs := by
  induction bs with
  | nil => simp [hexChars]
  | cons b bs ih =>
    have h1 := hexDigit_ne_slash ⟨b.val / 16, by omega⟩
    have h2 := hexDigit_ne_slash ⟨b.val % 16, by omega⟩
    simp only [hexChars, List.mem_cons, not_or]
    exact ⟨fun h => h1 h.symm, fun h => h2 h.symm, ih⟩

theorem hexChars_injective : ∀ a b : List Byte, hexChars a = hexChars b → a = b := by
  intro a
  induction a with
  | nil =>
    intro b h
    cases b with
    | nil => rfl
    | cons y ys => simp [hexChars] at h
  | cons x xs ih =>
    intro b h
    cases b with
    | nil => simp [hexChars] at h
    | cons y ys =>
      simp only [hexChars, List.cons.injEq] at h
      obtain ⟨hh, hl, ht⟩ := h
      have e1 := hexDigit_injective ⟨x.val / 16, by omega⟩ ⟨y.val / 16, by omega⟩ hh
      have e2 := hexDigit_injective ⟨x.val % 16, by omega⟩ ⟨y.val % 16, by omega⟩ hl
      simp only [Fin.mk.injEq] at e1 e2
      have hxy : x = y := Fin.ext (by omega)
      rw [hxy, ih ys ht]

theorem split_unique {α : Type} (c : α) :
    ∀ (l₁ l₂ r₁ r₂ : List α), c ∉ l₁ → c ∉ l₂ → l₁ ++ c :: r₁ = l₂ ++ c :: r₂ →
      l₁ = l₂ ∧ r₁ = r₂ := by
  intro l₁
  induction l₁ with
  | nil =>
    intro l₂ r₁ r₂ _ h₂ h
    cases l₂ with
    | nil => simpa using h
    | cons y ys =>
      simp only [List.nil_append, List.cons_append, List.cons.injEq] at h
      exact absurd (by simp [h.1]) h₂
  | cons x xs ih =>
    intro l₂ r₁ r₂ h₁ h₂ h
    cases l₂ with
    | nil =>
      simp only [List.nil_append, List.cons_append, List.cons.injEq] at h
      exact absurd (by simp [h.1]) h₁
    | cons y ys =>
      simp only [List.cons_append, List.cons.injEq] at h
      simp only [List.mem_cons, not_or] at h₁ h₂
      obtain ⟨e, et⟩ := ih ys r₁ r₂ h₁.2 h₂.2 h.2
      exact ⟨by rw [h.1, e], et⟩

theorem specPath_data (k : SaveKey) :
    (specPath k).data = "userdata/".data ++ (hexChars k.account ++ '/' :: entryChars k.dataType) := by
  unfold specPath entryChars
  cases k.dataType <;> simp [String.data_append, hexEncodeToString]

theorem entryChars_injective {d₁ d₂ : DataType}
    (h₁ : ∀ n, d₁ = .Session n → 0 ≤ n ∧ n < 3) (h₂ : ∀ n, d₂ = .Session n → 0 ≤ n ∧ n < 3)
    (h : entryChars d₁ = entryChars d₂) : d₁ = d₂ := by
  cases d₁ with
  | System =>
    cases d₂ with
    | System => rfl
    | Session m =>
      have hm : m = 0 ∨ m = 1 ∨ m = 2 := by have := h₂ m rfl; omega
      rcases hm with rfl | rfl | rfl <;> exact absurd h (by decide)
  | Session n =>
    have hn : n = 0 ∨ n = 1 ∨ n = 2 := by have := h₁ n rfl; omega
    cases d₂ with
    | System => rcases hn with rfl | rfl | rfl <;> exact absurd h (by decide)
    | Session m =>
      have hm : m = 0 ∨ m = 1 ∨ m = 2 := by have := h₂ m rfl; omega
      rcases hn with rfl | rfl | rfl <;> rcases hm with rfl | rfl | rfl <;>
        first
          | rfl
          | exact absurd h (by decide)

theorem specPath_injective {k₁ k₂ : SaveKey}
    (h₁ : ∀ n, k₁.dataType = .Session n → 0 ≤ n ∧ n < 3)
    (h₂ : ∀ n, k₂.dataType = .Session n → 0 ≤ n ∧ n < 3)
    (h : specPath k₁ = specPath k₂) : k₁ = k₂ := by
  have hd := congrArg String.data h
  rw [specPath_data, specPath_data] at hd
  have hd' := List.append_cancel_left hd
  obtain ⟨ha, he⟩ := split_unique '/' _ _ _ _ (slash_not_mem_hexChars _)
    (slash_not_mem_hexChars _) hd'
  have hacc := hexChars_injective _ _ ha
  have hdt := entryChars_injective h₁ h₂ he
  cases k₁; cases k₂
  simp only at hacc hdt
  rw [hacc, hdt]

theorem Addresses.valid {env : Env} {r : Request} {k : SaveKey} (h : Addresses env r k) :
    ∀ n, k.dataType = .Session n → 0 ≤ n ∧ n < 3 := by
  intro n hn
  have h2 := h.2
  rw [hn] at h2
  exact ⟨h2.2.2.1, h2.2.2.2⟩

theorem update_write_path (env : Env) (r : Request) (k : SaveKey) (p : String)
    (d : List Byte) (h : Addresses env r k)
    (hw : Event.writeFile p d ∈ (handleSavedataUpdate env r).2) : p = specPath k := by
  obtain ⟨hu, hk⟩ := h
  have ht : Event.writeFile p d ∉ touchLastActivity env k.account := by
    intro hm
    have := touchLastActivity_no_store env k.account _ hm
    simp [Event.isStoreOp] at this
  unfold handleSavedataUpdate at hw
  cases hdt : k.dataType with
  | System =>
    rw [hdt] at hk
    simp only [specPath, hdt]
    simp only at hk
    simp only [hu, hk, if_true] at hw
    revert hw
    repeat' split
    all_goals simp [ht]
    all_goals intro h _; exact h
  | Session n =>
    rw [hdt] at hk
    simp only [specPath, hdt]
    simp only at hk
    obtain ⟨hd, hn, h0, h3⟩ := hk
    simp only [hu, hd, one_ne_zero_token, if_false, if_true, hn, slot_in_range h0 h3,
      Bool.false_eq_true, fileName_eq_spec h0 h3] at hw
    revert hw
    repeat' split
    all_goals simp [ht]
    all_goals intro h _; exact h

/-- C4: the storage path is an injective pure function of the save key. Every
blob the update handler writes for a request that addresses the valid key `k`
lands on `specPath k` (`userdata/<hex(account)>/system.pzs` or
`userdata/<hex(account)>/session[<slot>].pzs`), and for two valid keys the
written paths are equal exactly when the keys are equal: keys that differ in
account, in data-type or in slot give different paths. -/
theorem save_path_injective (env₁ env₂ : Env) (r₁ r₂ : Request) (k₁ k₂ : SaveKey)
    (p₁ p₂ : String) (d₁ d₂ : List Byte)
    (h₁ : Addresses env₁ r₁ k₁) (h₂ : Addresses env₂ r₂ k₂)
    (hw₁ : Event.writeFile p₁ d₁ ∈ (handleSavedataUpdate env₁ r₁).2)
    (hw₂ : Event.writeFile p₂ d₂ ∈ (handleSavedataUpdate env₂ r₂).2) :
    p₁ = specPath k₁ ∧ p₂ = specPath k₂ ∧ (p₁ = p₂ ↔ k₁ = k₂) := by
  have e₁ := update_write_path env₁ r₁ k₁ p₁ d₁ h₁ hw₁
  have e₂ := update_write_path env₂ r₂ k₂ p₂ d₂ h₂ hw₂
  refine ⟨e₁, e₂, ?_, ?_⟩
  · intro h
    rw [e₁, e₂] at h
    exact specPath_injective h₁.valid h₂.valid h
  · intro h
    rw [e₁, e₂, h]

/-- Witness for C4: the System save and the Session save of slot 1 of account
`ab01`, both written in the all-succeeding environment. -/
theorem save_path_injective_witness :
    Addresses okEnv ⟨"", "0", "", "x"⟩ ⟨[0xab, 0x01], .System⟩ ∧
    Addresses okEnv ⟨"", "1", "1", "x"⟩ ⟨[0xab, 0x01], .Session 1⟩ ∧
    Event.writeFile "userdata/ab01/system.pzs" [1] ∈
      (handleSavedataUpdate okEnv ⟨"", "0", "", "x"⟩).2 ∧
    Event.writeFile "userdata/ab01/session1.pzs" [2] ∈
      (handleSavedataUpdate okEnv ⟨"", "1", "1", "x"⟩).2 ∧
    ("userdata/ab01/system.pzs" = "userdata/ab01/session1.pzs" ↔
      (⟨[0xab, 0x01], .System⟩ : SaveKey) = ⟨[0xab, 0x01], .Session 1⟩) :=
  have a₁ : Addresses okEnv ⟨"", "0", "", "x"⟩ ⟨[0xab, 0x01], .System⟩ := ⟨rfl, rfl⟩
  have a₂ : Addresses okEnv ⟨"", "1", "1", "x"⟩ ⟨[0xab, 0x01], .Session 1⟩ :=
    ⟨rfl, rfl, by decide, by decide, by decide⟩
  have w₁ : Event.writeFile "userdata/ab01/system.pzs" [1] ∈
      (handleSavedataUpdate okEnv ⟨"", "0", "", "x"⟩).2 := by decide
  have w₂ : Event.writeFile "userdata/ab01/session1.pzs" [2] ∈
      (handleSavedataUpdate okEnv ⟨"", "1", "1", "x"⟩).2 := by decide
  ⟨a₁, a₂, w₁, w₂, (save_path_injective okEnv okEnv _ _ _ _ _ _ _ _ a₁ a₂ w₁ w₂).2.2⟩

/-! ## The clear operation -/

theorem clear_trace (env : Env) (r : Request) (uuid : UUID) (n : Int)
    (session : SessionSaveData)
    (hu : env.getUUIDFromRequest r = .ok uuid)
    (hn : strconvAtoi r.slot = .ok n) (h0 : 0 ≤ n) (h3 : n < 3)
    (hs : env.jsonDecodeSession r.body = .ok session) :
    (handleSavedataClear env r).2 =
      touchLastActivity env uuid ++
        clearDailyRun env uuid session (env.validateSessionCompleted session) ++
        (clearSeedCompletion env uuid session (env.validateSessionCompleted session)).2 ++
        [Event.remove
          ("userdata/" ++ hexEncodeToString uuid ++ "/" ++ specSessionName n ++ ".pzs")] := by
  unfold handleSavedataClear
  simp only [hu, hn, slot_in_range h0 h3, Bool.false_eq_true, if_false, hs,
    fileName_eq_spec h0 h3, jsonMarshalClearResponse]
  split <;> rfl

theorem clear_response_ok (env : Env) (r : Request) (uuid : UUID) (n : Int)
    (session : SessionSaveData)
    (hu : env.getUUIDFromRequest r = .ok uuid)
    (hn : strconvAtoi r.slot = .ok n) (h0 : 0 ≤ n) (h3 : n < 3)
    (hs : env.jsonDecodeSession r.body = .ok session)
    (hrm : (env.osRemove
      ("userdata/" ++ hexEncodeToString uuid ++ "/" ++ specSessionName n ++ ".pzs")).filter
        (fun e => !e.isNotExist) = none) :
    (handleSavedataClear env r).1 =
      ⟨StatusOK,
        if (clearSeedCompletion env uuid session (env.validateSessionCompleted session)).1
        then "\x7b\"success\":true\x7d" else "\x7b\"success\":false\x7d"⟩ := by
  unfold handleSavedataClear
  simp only [hu, hn, slot_in_range h0 h3, Bool.false_eq_true, if_false, hs,
    fileName_eq_spec h0 h3, jsonMarshalClearResponse, hrm]

theorem clear_response_fail (env : Env) (r : Request) (uuid : UUID) (n : Int)
    (session : SessionSaveData) (err : OSError)
    (hu : env.getUUIDFromRequest r = .ok uuid)
    (hn : strconvAtoi r.slot = .ok n) (h0 : 0 ≤ n) (h3 : n < 3)
    (hs : env.jsonDecodeSession r.body = .ok session)
    (hrm : (env.osRemove
      ("userdata/" ++ hexEncodeToString uuid ++ "/" ++ specSessionName n ++ ".pzs")).filter
        (fun e => !e.isNotExist) = some err) :
    (handleSavedataClear env r).1 =
      httpError ("failed to delete save file: " ++ err.msg) StatusInternalServerError := by
  unfold handleSavedataClear
  simp only [hu, hn, slot_in_range h0 h3, Bool.false_eq_true, if_false, hs,
    fileName_eq_spec h0 h3, jsonMarshalClearResponse, hrm]

theorem touch_filter_seed (env : Env) (uuid : UUID) :
    (touchLastActivity env uuid).filter Event.isSeedCompletion = [] := by
  unfold touchLastActivity
  split <;> rfl

theorem touch_filter_daily (env : Env) (uuid : UUID) :
    (touchLastActivity env uuid).filter Event.isDailyRun = [] := by
  unfold touchLastActivity
  split <;> rfl

theorem daily_filter_seed (env : Env) (uuid : UUID) (session : SessionSaveData) (c : Bool) :
    (clearDailyRun env uuid session c).filter Event.isSeedCompletion = [] := by
  unfold clearDailyRun
  dsimp only
  repeat' split
  all_goals rfl

theorem seed_filter_daily (env : Env) (uuid : UUID) (session : SessionSaveData) (c : Bool) :
    (clearSeedCompletion env uuid session c).2.filter Event.isDailyRun = [] := by
  unfold clearSeedCompletion
  repeat' split
  all_goals rfl

theorem seed_filter_seed (env : Env) (uuid : UUID) (session : SessionSaveData) (c : Bool) :
    (clearSeedCompletion env uuid session c).2.filter Event.isSeedCompletion =
      if c then [Event.tryAddSeedCompletion uuid session.Seed session.GameMode] else [] := by
  unfold clearSeedCompletion
  cases c
  · rfl
  · simp only [if_true]
    split <;> rfl

theorem seed_flag_not_completed (env : Env) (uuid : UUID) (session : SessionSaveData) :
    (clearSeedCompletion env uuid session false).1 = false := rfl

theorem daily_filter_daily (env : Env) (uuid : UUID) (session : SessionSaveData) (c : Bool) :
    (clearDailyRun env uuid session c).filter Event.isDailyRun =
      if session.GameMode = 3 ∧ session.Seed = env.dailyRunSeed then
        [Event.addOrUpdateAccountDailyRun uuid session.Score
          (if c then session.WaveIndex else decInt session.WaveIndex)]
      else [] := by
  unfold clearDailyRun
  by_cases h : session.GameMode = 3 ∧ session.Seed = env.dailyRunSeed
  · have h' : (decide (session.GameMode = 3) && decide (session.Seed = env.dailyRunSeed))
        = true := by simpa using h
    rw [if_pos h', if_pos h]
    cases c <;>
      simp only [Bool.not_false, Bool.not_true, if_true, Bool.false_eq_true, if_false] <;>
      split <;> rfl
  · have h' : (decide (session.GameMode = 3) && decide (session.Seed = env.dailyRunSeed))
        = false := by simpa using h
    simp [h', h]

theorem clear_filter_seed (env : Env) (r : Request) (uuid : UUID) (n : Int)
    (session : SessionSaveData)
    (hu : env.getUUIDFromRequest r = .ok uuid)
    (hn : strconvAtoi r.slot = .ok n) (h0 : 0 ≤ n) (h3 : n < 3)
    (hs : env.jsonDecodeSession r.body = .ok session) :
    (handleSavedataClear env r).2.filter Event.isSeedCompletion =
      if env.validateSessionCompleted session then
        [Event.tryAddSeedCompletion uuid session.Seed session.GameMode]
      else [] := by
  rw [clear_trace env r uuid n session hu hn h0 h3 hs]
  simp only [List.filter_append, touch_filter_seed, daily_filter_seed, seed_filter_seed,
    List.nil_append]
  simp [List.filter, Event.isSeedCompletion]

theorem clear_filter_daily (env : Env) (r : Request) (uuid : UUID) (n : Int)
    (session : SessionSaveData)
    (hu : env.getUUIDFromRequest r = .ok uuid)
    (hn : strconvAtoi r.slot = .ok n) (h0 : 0 ≤ n) (h3 : n < 3)
    (hs : env.jsonDecodeSession r.body = .ok session) :
    (handleSavedataClear env r).2.filter Event.isDailyRun =
      if session.GameMode = 3 ∧ session.Seed = env.dailyRunSeed then
        [Event.addOrUpdateAccountDailyRun uuid session.Score
          (if env.validateSessionCompleted session then session.WaveIndex
           else decInt session.WaveIndex)]
      else [] := by
  rw [clear_trace env r uuid n session hu hn h0 h3 hs]
  simp only [List.filter_append, touch_filter_daily, daily_filter_daily, seed_filter_daily,
    List.nil_append]
  simp [List.filter, Event.isDailyRun]

theorem exists_mem_iff_filter_ne_nil (p : Event → Bool) (l : List Event) :
    (∃ e ∈ l, p e = true) ↔ l.filter p ≠ [] := by
  rw [Ne, List.filter_eq_nil_iff]
  push_neg
  exact Iff.rfl

/-- C5: in the clear operation, for a valid slot and a decodable body, the
seed-completion call `db.TryAddSeedCompletion(uuid, seed, mode)` is made (once)
if and only if the classifier reports the session as completed; when the
session is not completed no such call is made and the response never carries
`success: true`: it is `success: false` unless the removal of the blob fails. -/
theorem seed_completion_iff_completed (env : Env) (r : Request) (uuid : UUID) (n : Int)
    (session : SessionSaveData)
    (hu : env.getUUIDFromRequest r = .ok uuid)
    (hn : strconvAtoi r.slot = .ok n) (h0 : 0 ≤ n) (h3 : n < 3)
    (hs : env.jsonDecodeSession r.body = .ok session) :
    ((∃ e ∈ (handleSavedataClear env r).2, e.isSeedCompletion = true) ↔
      env.validateSessionCompleted session = true) ∧
    (env.validateSessionCompleted session = true →
      (handleSavedataClear env r).2.filter Event.isSeedCompletion =
        [Event.tryAddSeedCompletion uuid session.Seed session.GameMode]) ∧
    (env.validateSessionCompleted session = false →
      (∀ e ∈ (handleSavedataClear env r).2, e.isSeedCompletion = false) ∧
      (handleSavedataClear env r).1 ≠ ⟨StatusOK, "\x7b\"success\":true\x7d"⟩ ∧
      ((env.osRemove
          ("userdata/" ++ hexEncodeToString uuid ++ "/" ++ specSessionName n ++ ".pzs")).filter
            (fun e => !e.isNotExist) = none →
        (handleSavedataClear env r).1 = ⟨StatusOK, "\x7b\"success\":false\x7d"⟩)) := by
  have hf := clear_filter_seed env r uuid n session hu hn h0 h3 hs
  refine ⟨?_, ?_, ?_⟩
  · rw [exists_mem_iff_filter_ne_nil, hf]
    cases env.validateSessionCompleted session <;> simp
  · intro hc
    rw [hf, hc]
    rfl
  · intro hc
    have hnone : ∀ e ∈ (handleSavedataClear env r).2, e.isSeedCompletion = false := by
      intro e he
      by_contra hne
      have hex : ∃ e ∈ (handleSavedataClear env r).2, e.isSeedCompletion = true :=
        ⟨e, he, by simpa using hne⟩
      rw [exists_mem_iff_filter_ne_nil, hf, hc] at hex
      exact hex rfl
    have hok : (env.osRemove
          ("userdata/" ++ hexEncodeToString uuid ++ "/" ++ specSessionName n ++ ".pzs")).filter
            (fun e => !e.isNotExist) = none →
        (handleSavedataClear env r).1 = ⟨StatusOK, "\x7b\"success\":false\x7d"⟩ := by
      intro hrm
      rw [clear_response_ok env r uuid n session hu hn h0 h3 hs hrm, hc]
      rfl
    refine ⟨hnone, ?_, hok⟩
    cases hrm : (env.osRemove
          ("userdata/" ++ hexEncodeToString uuid ++ "/" ++ specSessionName n ++ ".pzs")).filter
            (fun e => !e.isNotExist) with
    | none =>
      rw [hok hrm]
      decide
    | some err =>
      rw [clear_response_fail env r uuid n session err hu hn h0 h3 hs hrm]
      simp [httpError, StatusInternalServerError, StatusOK]

/-- Witness for C5: a not-completed session cleared from slot 0 in the
all-succeeding environment. -/
theorem seed_completion_iff_completed_witness :
    okEnv.getUUIDFromRequest ⟨"", "", "0", "x"⟩ = .ok [0xab, 0x01] ∧
    strconvAtoi "0" = .ok 0 ∧
    okEnv.jsonDecodeSession "x" = .ok ⟨"daily", 3, 5, 100, "x"⟩ ∧
    okEnv.validateSessionCompleted ⟨"daily", 3, 5, 100, "x"⟩ = false ∧
    (∀ e ∈ (handleSavedataClear okEnv ⟨"", "", "0", "x"⟩).2, e.isSeedCompletion = false) ∧
    (handleSavedataClear okEnv ⟨"", "", "0", "x"⟩).1 =
      ⟨StatusOK, "\x7b\"success\":false\x7d"⟩ :=
  have h := seed_completion_iff_completed okEnv ⟨"", "", "0", "x"⟩ [0xab, 0x01] 0
    ⟨"daily", 3, 5, 100, "x"⟩ rfl (by decide) (by decide) (by decide) rfl
  ⟨rfl, by decide, rfl, by decide, (h.2.2 (by decide)).1, (h.2.2 (by decide)).2.2 rfl⟩

theorem decInt_eq_sub_one {x : Int} (hlo : -2 ^ 63 < x) (hhi : x < 2 ^ 63) :
    decInt x = x - 1 := by
  unfold decInt
  norm_num at hlo hhi ⊢
  omega

/-- C6, counterexample: a not-completed daily session whose stored wave index
is the least Go `int`, `-2^63`, is recorded with wave reached `2^63 - 1` (the
decrement wraps around), which is not the stored wave index minus one. -/
theorem wave_reached_wraps_at_least_int :
    minWaveEnv.jsonDecodeSession "x" = .ok ⟨"daily", 3, -2 ^ 63, 100, "x"⟩ ∧
    minWaveEnv.validateSessionCompleted ⟨"daily", 3, -2 ^ 63, 100, "x"⟩ = false ∧
    (handleSavedataClear minWaveEnv ⟨"", "", "0", "x"⟩).2.filter Event.isDailyRun =
      [Event.addOrUpdateAccountDailyRun [0xab, 0x01] 100 (2 ^ 63 - 1)] ∧
    ((2 : Int) ^ 63 - 1 ≠ -2 ^ 63 - 1) ∧
    ¬ (∀ u score wave,
        Event.addOrUpdateAccountDailyRun u score wave ∈
          (handleSavedataClear minWaveEnv ⟨"", "", "0", "x"⟩).2 →
        wave = (-2 ^ 63 : Int) - 1) := by
  refine ⟨rfl, by decide, by decide, by decide, ?_⟩
  intro h
  have hw := h [0xab, 0x01] 100 (2 ^ 63 - 1) (by decide)
  exact absurd hw (by decide)

/-- C6, amended: in the clear operation, every daily-run update passed to the
account store carries the account, the session's score unchanged, and as wave
reached the stored wave index when the session is classified as completed and
the stored wave index decremented once as a Go `int` when it is not: exactly
the stored wave index minus one for every wave index above the least `int`,
and the greatest `int`, `2^63 - 1`, when the stored wave index is the least
`int`, `-2^63`. -/
theorem daily_run_wave_reached (env : Env) (r : Request) (uuid : UUID) (n : Int)
    (session : SessionSaveData) (u : UUID) (score wave : Int)
    (hu : env.getUUIDFromRequest r = .ok uuid)
    (hn : strconvAtoi r.slot = .ok n) (h0 : 0 ≤ n) (h3 : n < 3)
    (hs : env.jsonDecodeSession r.body = .ok session)
    (he : Event.addOrUpdateAccountDailyRun u score wave ∈ (handleSavedataClear env r).2) :
    u = uuid ∧ score = session.Score ∧
    (env.validateSessionCompleted session = true → wave = session.WaveIndex) ∧
    (env.validateSessionCompleted session = false →
      wave = decInt session.WaveIndex ∧
      (-2 ^ 63 < session.WaveIndex → session.WaveIndex < 2 ^ 63 →
        wave = session.WaveIndex - 1) ∧
      (session.WaveIndex = -2 ^ 63 → wave = 2 ^ 63 - 1)) := by
  have hm : Event.addOrUpdateAccountDailyRun u score wave ∈
      (handleSavedataClear env r).2.filter Event.isDailyRun :=
    List.mem_filter.2 ⟨he, rfl⟩
  rw [clear_filter_daily env r uuid n session hu hn h0 h3 hs] at hm
  split at hm
  · simp only [List.mem_singleton, Event.addOrUpdateAccountDailyRun.injEq] at hm
    obtain ⟨e1, e2, e3⟩ := hm
    refine ⟨e1, e2, ?_, ?_⟩
    · intro hc
      rw [e3, hc]
      rfl
    · intro hc
      have e4 : wave = decInt session.WaveIndex := by
        rw [e3, hc]
        rfl
      refine ⟨e4, fun hlo hhi => by rw [e4, decInt_eq_sub_one hlo hhi], fun hmin => ?_⟩
      rw [e4, hmin]
      decide
  · simp at hm

/-- Witness for C6 (amended): wave 5, not completed, on the daily seed is
recorded as wave 4 with the score 100 unchanged. -/
theorem daily_run_wave_reached_witness :
    okEnv.getUUIDFromRequest ⟨"", "", "0", "x"⟩ = .ok [0xab, 0x01] ∧
    strconvAtoi "0" = .ok 0 ∧
    okEnv.jsonDecodeSession "x" = .ok ⟨"daily", 3, 5, 100, "x"⟩ ∧
    Event.addOrUpdateAccountDailyRun [0xab, 0x01] 100 4 ∈
      (handleSavedataClear okEnv ⟨"", "", "0", "x"⟩).2 ∧
    okEnv.validateSessionCompleted ⟨"daily", 3, 5, 100, "x"⟩ = false ∧
    (4 : Int) = 5 - 1 :=
  have h := daily_run_wave_reached okEnv ⟨"", "", "0", "x"⟩ [0xab, 0x01] 0
    ⟨"daily", 3, 5, 100, "x"⟩ [0xab, 0x01] 100 4 rfl (by decide) (by decide) (by decide) rfl
    (by decide)
  ⟨rfl, by decide, rfl, by decide, by decide,
    ((h.2.2.2 (by decide)).2.1 (by decide) (by decide))⟩

/-- C7: in the clear operation, for a valid slot and a decodable body, the
daily-run upsert `db.AddOrUpdateAccountDailyRun` is called (once) exactly when
the session's game mode is 3 and its seed equals the published daily seed,
whatever the completion classification; for any other mode or seed no
daily-run call is made. -/
theorem daily_run_iff_daily_seed (env : Env) (r : Request) (uuid : UUID) (n : Int)
    (session : SessionSaveData)
    (hu : env.getUUIDFromRequest r = .ok uuid)
    (hn : strconvAtoi r.slot = .ok n) (h0 : 0 ≤ n) (h3 : n < 3)
    (hs : env.jsonDecodeSession r.body = .ok session) :
    ((∃ e ∈ (handleSavedataClear env r).2, e.isDailyRun = true) ↔
      (session.GameMode = 3 ∧ session.Seed = env.dailyRunSeed)) ∧
    ((session.GameMode = 3 ∧ session.Seed = env.dailyRunSeed) →
      (handleSavedataClear env r).2.filter Event.isDailyRun =
        [Event.addOrUpdateAccountDailyRun uuid session.Score
          (if env.validateSessionCompleted session then session.WaveIndex
           else decInt session.WaveIndex)]) ∧
    (¬ (session.GameMode = 3 ∧ session.Seed = env.dailyRunSeed) →
      ∀ e ∈ (handleSavedataClear env r).2, e.isDailyRun = false) := by
  have hf := clear_filter_daily env r uuid n session hu hn h0 h3 hs
  have hiff : (∃ e ∈ (handleSavedataClear env r).2, e.isDailyRun = true) ↔
      (session.GameMode = 3 ∧ session.Seed = env.dailyRunSeed) := by
    rw [exists_mem_iff_filter_ne_nil, hf]
    by_cases hc : session.GameMode = 3 ∧ session.Seed = env.dailyRunSeed
    · simp [hc]
    · simp [hc]
  refine ⟨hiff, ?_, ?_⟩
  · intro hc
    rw [hf, if_pos hc]
  · intro hc e he
    by_contra hne
    exact hc (hiff.1 ⟨e, he, by simpa using hne⟩)

/-- Witness for C7: a not-completed session of mode 3 on the daily seed makes
the daily-run call. -/
theorem daily_run_iff_daily_seed_witness :
    okEnv.getUUIDFromRequest ⟨"", "", "0", "x"⟩ = .ok [0xab, 0x01] ∧
    strconvAtoi "0" = .ok 0 ∧
    okEnv.jsonDecodeSession "x" = .ok ⟨"daily", 3, 5, 100, "x"⟩ ∧
    okEnv.validateSessionCompleted ⟨"daily", 3, 5, 100, "x"⟩ = false ∧
    ∃ e ∈ (handleSavedataClear okEnv ⟨"", "", "0", "x"⟩).2, e.isDailyRun = true :=
  have h := daily_run_iff_daily_seed okEnv ⟨"", "", "0", "x"⟩ [0xab, 0x01] 0
    ⟨"daily", 3, 5, 100, "x"⟩ rfl (by decide) (by decide) (by decide) rfl
  ⟨rfl, by decide, rfl, by decide, h.1.2 ⟨rfl, rfl⟩⟩

/-- C8: in the clear operation, once the slot is valid and the body decodes,
for every outcome of the two ledger calls (every choice of the functions
`daily` and `seed` standing for `db.AddOrUpdateAccountDailyRun` and
`db.TryAddSeedCompletion`) the removal of the slot's blob is attempted, as the
last effect and the only blob-store effect, after the ledger effects; the
request answers 200 with the completion flag exactly when that removal itself
does not fail, so a ledger failure alone never turns the answer into an
error. -/
theorem clear_always_deletes (env : Env) (r : Request) (uuid : UUID) (n : Int)
    (session : SessionSaveData)
    (daily : UUID → Int → Int → Option String)
    (seed : UUID → String → Int → Bool × Option String)
    (hu : env.getUUIDFromRequest r = .ok uuid)
    (hn : strconvAtoi r.slot = .ok n) (h0 : 0 ≤ n) (h3 : n < 3)
    (hs : env.jsonDecodeSession r.body = .ok session) :
    (handleSavedataClear
        { env with AddOrUpdateAccountDailyRun := daily, TryAddSeedCompletion := seed } r).2 =
      touchLastActivity env uuid ++
        clearDailyRun { env with AddOrUpdateAccountDailyRun := daily,
                                 TryAddSeedCompletion := seed }
          uuid session (env.validateSessionCompleted session) ++
        (clearSeedCompletion { env with AddOrUpdateAccountDailyRun := daily,
                                        TryAddSeedCompletion := seed }
          uuid session (env.validateSessionCompleted session)).2 ++
        [Event.remove
          ("userdata/" ++ hexEncodeToString uuid ++ "/" ++ specSessionName n ++ ".pzs")] ∧
    storeOps (handleSavedataClear
        { env with AddOrUpdateAccountDailyRun := daily, TryAddSeedCompletion := seed } r).2 =
      [Event.remove
        ("userdata/" ++ hexEncodeToString uuid ++ "/" ++ specSessionName n ++ ".pzs")] ∧
    ((env.osRemove
        ("userdata/" ++ hexEncodeToString uuid ++ "/" ++ specSessionName n ++ ".pzs")).filter
          (fun e => !e.isNotExist) = none →
      (handleSavedataClear
        { env with AddOrUpdateAccountDailyRun := daily, TryAddSeedCompletion := seed } r).1 =
        ⟨StatusOK, "\x7b\"success\":true\x7d"⟩ ∨
      (handleSavedataClear
        { env with AddOrUpdateAccountDailyRun := daily, TryAddSeedCompletion := seed } r).1 =
        ⟨StatusOK, "\x7b\"success\":false\x7d"⟩) ∧
    (∀ err, (env.osRemove
        ("userdata/" ++ hexEncodeToString uuid ++ "/" ++ specSessionName n ++ ".pzs")).filter
          (fun e => !e.isNotExist) = some err →
      (handleSavedataClear
        { env with AddOrUpdateAccountDailyRun := daily, TryAddSeedCompletion := seed } r).1 =
        httpError ("failed to delete save file: " ++ err.msg) StatusInternalServerError) := by
  refine ⟨?_, ?_, ?_, ?_⟩
  · exact clear_trace
      { env with AddOrUpdateAccountDailyRun := daily, TryAddSeedCompletion := seed }
      r uuid n session hu hn h0 h3 hs
  · rw [clear_trace
      { env with AddOrUpdateAccountDailyRun := daily, TryAddSeedCompletion := seed }
      r uuid n session hu hn h0 h3 hs]
    simp only [storeOps_append, storeOps_touch, storeOps_clearDailyRun,
      storeOps_clearSeedCompletion, List.nil_append]
    rfl
  · intro hrm
    rw [clear_response_ok
      { env with AddOrUpdateAccountDailyRun := daily, TryAddSeedCompletion := seed }
      r uuid n session hu hn h0 h3 hs hrm]
    split
    · exact Or.inl rfl
    · exact Or.inr rfl
  · intro err hrm
    exact clear_response_fail
      { env with AddOrUpdateAccountDailyRun := daily, TryAddSeedCompletion := seed }
      r uuid n session err hu hn h0 h3 hs hrm

/-- Witness for C8: both ledger calls fail on a completed daily session, the
blob of slot 1 is still removed and the answer is the flag. -/
theorem clear_always_deletes_witness :
    okEnv.getUUIDFromRequest ⟨"", "", "1", "completed"⟩ = .ok [0xab, 0x01] ∧
    strconvAtoi "1" = .ok 1 ∧
    okEnv.jsonDecodeSession "completed" = .ok ⟨"daily", 3, 5, 100, "completed"⟩ ∧
    storeOps (handleSavedataClear
        { okEnv with AddOrUpdateAccountDailyRun := fun _ _ _ => some "db down",
                     TryAddSeedCompletion := fun _ _ _ => (false, some "db down") }
        ⟨"", "", "1", "completed"⟩).2 =
      [Event.remove "userdata/ab01/session1.pzs"] ∧
    ((handleSavedataClear
        { okEnv with AddOrUpdateAccountDailyRun := fun _ _ _ => some "db down",
                     TryAddSeedCompletion := fun _ _ _ => (false, some "db down") }
        ⟨"", "", "1", "completed"⟩).1 = ⟨StatusOK, "\x7b\"success\":true\x7d"⟩ ∨
     (handleSavedataClear
        { okEnv with AddOrUpdateAccountDailyRun := fun _ _ _ => some "db down",
                     TryAddSeedCompletion := fun _ _ _ => (false, some "db down") }
        ⟨"", "", "1", "completed"⟩).1 = ⟨StatusOK, "\x7b\"success\":false\x7d"⟩) :=
  have h := clear_always_deletes okEnv ⟨"", "", "1", "completed"⟩ [0xab, 0x01] 1
    ⟨"daily", 3, 5, 100, "completed"⟩ (fun _ _ _ => some "db down")
    (fun _ _ _ => (false, some "db down")) rfl (by decide) (by decide) (by decide) rfl
  ⟨rfl, by decide, rfl, h.2.1, h.2.2.1 rfl⟩

/-! ## Failures of the account store -/

/-- C10, counterexample: a completed session is cleared, the seed-completion
call fails and returns `true` alongside its error; the response reports
`success: true`, not `false`. -/
theorem failed_seed_completion_reports_true :
    seedFailEnv.validateSessionCompleted ⟨"daily", 3, 5, 100, "completed"⟩ = true ∧
    seedFailEnv.TryAddSeedCompletion [0xab, 0x01] "daily" 3 = (true, some "db down") ∧
    (handleSavedataClear seedFailEnv ⟨"", "", "0", "completed"⟩).1 =
      ⟨StatusOK, "\x7b\"success\":true\x7d"⟩ ∧
    (handleSavedataClear seedFailEnv ⟨"", "", "0", "completed"⟩).1 ≠
      ⟨StatusOK, "\x7b\"success\":false\x7d"⟩ := by
  decide

/-- C10, amended: in the clear operation, when the session is completed and
the seed-completion call fails, the failure is only logged and the response
reports the boolean the failed call returned alongside its error: `false` when
the call returned `false`, `true` when it returned `true`. -/
theorem failed_seed_completion_reports_returned (env : Env) (r : Request) (uuid : UUID)
    (n : Int) (session : SessionSaveData) (b : Bool) (err : String)
    (hu : env.getUUIDFromRequest r = .ok uuid)
    (hn : strconvAtoi r.slot = .ok n) (h0 : 0 ≤ n) (h3 : n < 3)
    (hs : env.jsonDecodeSession r.body = .ok session)
    (hc : env.validateSessionCompleted session = true)
    (hf : env.TryAddSeedCompletion uuid session.Seed session.GameMode = (b, some err))
    (hrm : (env.osRemove
      ("userdata/" ++ hexEncodeToString uuid ++ "/" ++ specSessionName n ++ ".pzs")).filter
        (fun e => !e.isNotExist) = none) :
    (handleSavedataClear env r).1 =
      ⟨StatusOK, if b then "\x7b\"success\":true\x7d" else "\x7b\"success\":false\x7d"⟩ ∧
    Event.logPrint ("failed to mark seed as completed: " ++ err) ∈
      (handleSavedataClear env r).2 := by
  have hseed : clearSeedCompletion env uuid session true =
      (b, [Event.tryAddSeedCompletion uuid session.Seed session.GameMode,
           Event.logPrint ("failed to mark seed as completed: " ++ err)]) := by
    unfold clearSeedCompletion
    simp only [if_true, hf]
  constructor
  · rw [clear_response_ok env r uuid n session hu hn h0 h3 hs hrm, hc, hseed]
  · rw [clear_trace env r uuid n session hu hn h0 h3 hs, hc, hseed]
    simp

/-- Witness for C10 (amended): the failed call returns `false`, the response
reports `success: false`. -/
theorem failed_seed_completion_reports_returned_witness :
    okEnv.getUUIDFromRequest ⟨"", "", "0", "completed"⟩ = .ok [0xab, 0x01] ∧
    strconvAtoi "0" = .ok 0 ∧
    (handleSavedataClear
        { okEnv with TryAddSeedCompletion := fun _ _ _ => (false, some "db down") }
        ⟨"", "", "0", "completed"⟩).1 =
      ⟨StatusOK, "\x7b\"success\":false\x7d"⟩ :=
  have h := failed_seed_completion_reports_returned
    { okEnv with TryAddSeedCompletion := fun _ _ _ => (false, some "db down") }
    ⟨"", "", "0", "completed"⟩ [0xab, 0x01] 0 ⟨"daily", 3, 5, 100, "completed"⟩ false
    "db down" rfl (by decide) (by decide) (by decide) rfl (by decide) rfl rfl
  ⟨rfl, by decide, h.1⟩

/-- C9, counterexample: a System update with the identity pair `(7, 0)` whose
account-stats update fails is answered with status 400, not with success, and
leaves no effect on the blob store: nothing is written. -/
theorem failed_stats_update_is_surfaced :
    statsFailEnv.jsonDecodeSystem "x" = .ok ⟨7, 0, "stats", "x"⟩ ∧
    statsFailEnv.UpdateAccountStats [0xab, 0x01] "stats" = some "db down" ∧
    handleSavedataUpdate statsFailEnv ⟨"", "0", "", "x"⟩ =
      (⟨400, "failed to update account stats: db down"⟩,
        [Event.updateAccountLastActivity [0xab, 0x01],
         Event.updateAccountStats [0xab, 0x01] "stats"]) ∧
    (handleSavedataUpdate statsFailEnv ⟨"", "0", "", "x"⟩).1.status ≠ StatusOK ∧
    storeOps (handleSavedataUpdate statsFailEnv ⟨"", "0", "", "x"⟩).2 = [] := by
  decide

theorem update_response_touch_irrelevant (env : Env) (r : Request)
    (touch : UUID → Option String) :
    (handleSavedataUpdate { env with UpdateAccountLastActivity := touch } r).1 =
      (handleSavedataUpdate env r).1 := by
  unfold handleSavedataUpdate
  dsimp only
  repeat' split
  all_goals rfl

/-- C9, amended: in the update flow a failure of the last-activity touch is
only logged and never changes the response, but a failure of the account-stats
update is surfaced: when updating a System save with a valid (non-zero)
identity pair, the handler answers status 400 with the message
`failed to update account stats: <error>`, the flow stops there, and the save
is neither encoded nor written. -/
theorem failed_stats_update_rejects (env : Env) (r : Request) (uuid : UUID)
    (system : SystemSaveData) (err : String)
    (hu : env.getUUIDFromRequest r = .ok uuid) (hd : r.datatype = "0")
    (hb : env.jsonDecodeSystem r.body = .ok system)
    (hid : ¬ (system.TrainerID = 0 ∧ system.SecretID = 0))
    (hf : env.UpdateAccountStats uuid system.GameStats = some err) :
    handleSavedataUpdate env r =
      (httpError ("failed to update account stats: " ++ err) StatusBadRequest,
        touchLastActivity env uuid ++ [Event.updateAccountStats uuid system.GameStats]) ∧
    storeOps (handleSavedataUpdate env r).2 = [] ∧
    (∀ touch : UUID → Option String,
      (handleSavedataUpdate { env with UpdateAccountLastActivity := touch } r).1 =
        (handleSavedataUpdate env r).1) := by
  have hne : (decide (system.TrainerID = 0) && decide (system.SecretID = 0)) = false := by
    simpa using hid
  have h : handleSavedataUpdate env r =
      (httpError ("failed to update account stats: " ++ err) StatusBadRequest,
        touchLastActivity env uuid ++ [Event.updateAccountStats uuid system.GameStats]) := by
    unfold handleSavedataUpdate
    simp only [hu, hd, hb, hne, if_true, Bool.false_eq_true, if_false, hf]
  refine ⟨h, ?_, fun touch => update_response_touch_irrelevant env r touch⟩
  rw [h]
  simp only [storeOps_append, storeOps_touch, List.nil_append]
  rfl

/-- Witness for C9 (amended): the failing account-stats update of
`statsFailEnv`. -/
theorem failed_stats_update_rejects_witness :
    statsFailEnv.getUUIDFromRequest ⟨"", "0", "", "x"⟩ = .ok [0xab, 0x01] ∧
    statsFailEnv.jsonDecodeSystem "x" = .ok ⟨7, 0, "stats", "x"⟩ ∧
    statsFailEnv.UpdateAccountStats [0xab, 0x01] "stats" = some "db down" ∧
    storeOps (handleSavedataUpdate statsFailEnv ⟨"", "0", "", "x"⟩).2 = [] :=
  ⟨rfl, rfl, rfl,
    (failed_stats_update_rejects statsFailEnv ⟨"", "0", "", "x"⟩ [0xab, 0x01]
      ⟨7, 0, "stats", "x"⟩ "db down" rfl rfl rfl (by decide) rfl).2.1⟩

/-! ## Sanity checks of the library models -/

theorem strconvAtoi_samples :
    strconvAtoi "2" = .ok 2 ∧ strconvAtoi "+1" = .ok 1 ∧ strconvAtoi "-0" = .ok 0 ∧
    strconvAtoi "007" = .ok 7 ∧ strconvAtoi "-4" = .ok (-4) ∧
    strconvAtoi "" = .error .malformed ∧ strconvAtoi "-" = .error .malformed ∧
    strconvAtoi "1_0" = .error .malformed ∧ strconvAtoi " 1" = .error .malformed ∧
    strconvAtoi "9223372036854775807" = .ok 9223372036854775807 ∧
    strconvAtoi "9223372036854775808" = .error .outOfRange ∧
    strconvAtoi "-9223372036854775808" = .ok (-9223372036854775808) ∧
    strconvAtoi "-9223372036854775809" = .error .outOfRange ∧
    strconvAtoi "12x" = .error .malformed ∧
    strconvAtoi "9223372036854775808x" = .error .malformed ∧
    strconvAtoi "99999999999999999999x" = .error .outOfRange ∧
    strconvAtoi "+" = .error .malformed := by
  decide

theorem strconvItoa_samples :
    strconvItoa 0 = "0" ∧ strconvItoa 2 = "2" ∧ strconvItoa 130 = "130" ∧
    strconvItoa (-12) = "-12" := by
  decide

theorem hexEncodeToString_samples :
    hexEncodeToString [] = "" ∧ hexEncodeToString [0, 255, 171] = "00ffab" := by
  decide

theorem decInt_samples :
    decInt 5 = 4 ∧ decInt 0 = -1 ∧ decInt (-2 ^ 63) = 2 ^ 63 - 1 := by
  decide

theorem handlers_samples :
    handleSavedataDelete okEnv ⟨"", "1", "2", ""⟩ =
      (⟨200, ""⟩, [Event.updateAccountLastActivity [0xab, 0x01],
        Event.remove "userdata/ab01/session2.pzs"]) ∧
    handleSavedataDelete okEnv ⟨"", "1", "3", ""⟩ =
      (⟨400, "slot id 3 out of range"⟩, [Event.updateAccountLastActivity [0xab, 0x01]]) ∧
    handleSavedataGet okEnv ⟨"", "2", "0", ""⟩ = (⟨400, "invalid data type"⟩, []) ∧
    handleSavedataClear okEnv ⟨"", "", "0", "x"⟩ =
      (⟨200, "\x7b\"success\":false\x7d"⟩, [Event.updateAccountLastActivity [0xab, 0x01],
        Event.addOrUpdateAccountDailyRun [0xab, 0x01] 100 4,
        Event.remove "userdata/ab01/session.pzs"]) ∧
    handleSavedataClear okEnv ⟨"", "", "0", "completed"⟩ =
      (⟨200, "\x7b\"success\":true\x7d"⟩, [Event.updateAccountLastActivity [0xab, 0x01],
        Event.addOrUpdateAccountDailyRun [0xab, 0x01] 100 5,
        Event.tryAddSeedCompletion [0xab, 0x01] "daily" 3,
        Event.remove "userdata/ab01/session.pzs"]) ∧
    handleSavedataUpdate okEnv ⟨"", "0", "", "x"⟩ =
      (⟨200, ""⟩, [Event.updateAccountLastActivity [0xab, 0x01],
        Event.updateAccountStats [0xab, 0x01] "stats",
        Event.mkdirAll "userdata/ab01",
        Event.writeFile "userdata/ab01/system.pzs" [1]]) := by
  decide

end Savedata
